import Mathlib

/-!
# Verification of the ATS resume analyzer core (`ats_api.py`)

A shallow embedding of the core of the repository's `ats_api.py`:
the document preprocessor (`extract_text_from_pdf`, `convert_pdf_to_images`,
`prepare_vision_content`), the response parser (`parse_json_from_response`),
the completion client's retry loop (`get_gemini_response`), the two
three-stage analysis chains (`analyze_resume_ats_only`,
`analyze_resume_job_matching`) and the two HTTP endpoint handlers.

Texts are modelled as `List Char` (Python `str` slicing and indexing are
character-based, as is Lean's `List Char`).  External collaborators are
modelled at their interfaces:

* the PDF libraries (`fitz`, `pdf2image`) as a `PdfDoc` record carrying
  the outcome each library call would produce (a value, or an exception);
* the JSON library's `json.loads` as an executable recursive-descent
  decoder `json_loads` over a JSON subset (integer numerals, the standard
  single-character escapes; no `\u` escapes or floats, which none of the
  inputs of interest use);
* the Gemini client as an oracle function supplied as an argument;
* `json.dumps` as an abstract serializer argument `dumps`.
-/

namespace ATS

/-- Python strings, modelled character-by-character. -/
abbrev Str := List Char

/-- An opaque rasterized page image (the bitmap contents are irrelevant
to every property proved here; pages are distinguished by identity). -/
abbrev Image := Nat

/-- One element of the `content_parts` list built by
`prepare_vision_content`: either the leading `{"text": ...}` dict or an
image dict `{"mime_type": ..., "data": ...}`.  The JPEG re-encoding and
base64 step of the source is abstracted: the part records the mime type
and the source image. -/
inductive Part where
  | text (s : Str)
  | image (mimeType : Str) (data : Image)
deriving DecidableEq

/-- Whether a part is a text part. -/
def Part.isText : Part → Bool
  | .text _ => true
  | .image _ _ => false

/-- Whether a part is an image part. -/
def Part.isImage : Part → Bool
  | .text _ => false
  | .image _ _ => true

/-- A JSON value, as decoded by the model of `json.loads`.  Objects keep
their key/value pairs in textual order. -/
inductive Json where
  | null
  | bool (b : Bool)
  | num (n : Int)
  | str (s : Str)
  | arr (elems : List Json)
  | obj (kvs : List (Str × Json))

/-- A PDF document, modelled at the interface of the two external PDF
libraries: `textPages` is what `fitz` page-by-page text extraction would
yield (or an exception), `pages` is what `pdf2image.convert_from_bytes`
would yield (or an exception). -/
structure PdfDoc where
  textPages : Except Unit (List Str)
  pages : Except Unit (List Image)

/-! ## Model of the external `json.loads` (strict mode)

`json.loads` whitespace is space, tab, newline, carriage return; strings
reject raw control characters and unknown escapes; numbers may not have
leading zeros.  Floats and `\u` escapes are outside the modelled subset
(the decoder fails on them, which no input of interest exercises). -/

/-- JSON inter-token whitespace. -/
def isJsonWs (c : Char) : Bool :=
  [' ', '\t', '\n', '\r'].contains c

/-- Drop leading JSON whitespace. -/
def skipJsonWs (cs : Str) : Str := cs.dropWhile isJsonWs

/-- The single-character JSON string escapes and their denotations
(backspace and form feed written numerically). -/
def escPairs : List (Char × Char) :=
  [('"', '"'), ('\\', '\\'), ('/', '/'), ('n', '\n'), ('t', '\t'),
   ('r', '\r'), ('b', Char.ofNat 8), ('f', Char.ofNat 12)]

/-- The character denoted by a single-character JSON string escape. -/
def escMap (c : Char) : Option Char := escPairs.lookup c

/-- Decode a JSON string body (the opening quote already consumed),
returning the decoded characters and the rest of the input. -/
def parseStringAux : Str → Option (Str × Str)
  | [] => none
  | '"' :: rest => some ([], rest)
  | ['\\'] => none
  | '\\' :: e :: rest =>
    match escMap e with
    | none => none
    | some c => (parseStringAux rest).map fun p => (c :: p.1, p.2)
  | c :: rest =>
    if c.toNat < 32 then none
    else (parseStringAux rest).map fun p => (c :: p.1, p.2)

/-- Numeric value of a digit run. -/
def digitsVal (ds : Str) : Nat :=
  ds.foldl (fun acc c => 10 * acc + (c.toNat - 48)) 0

/-- Decode an unsigned JSON integer numeral at the head of the input
(rejecting leading zeros and anything that continues as a float). -/
def parseNumTail (cs : Str) : Option (Int × Str) :=
  let ds := cs.takeWhile Char.isDigit
  let rest := cs.dropWhile Char.isDigit
  if ds.isEmpty then none
  else if 1 < ds.length && ds.headI == '0' then none
  else
    match rest with
    | '.' :: _ => none
    | 'e' :: _ => none
    | 'E' :: _ => none
    | _ => some ((digitsVal ds : Int), rest)

/-- The three JSON keyword literals and their values. -/
def jsonLits : List (Str × Json) :=
  [("null".toList, .null), ("true".toList, .bool true), ("false".toList, .bool false)]

/-- Recognise a keyword literal at the head of the input. -/
def matchLit (cs : Str) : Option (Json × Str) :=
  (jsonLits.find? fun kv => kv.1.isPrefixOf cs).map fun kv => (kv.2, cs.drop kv.1.length)

/-- Fuel-indexed family of mutually recursive JSON decoders:
value decoder, object-member-list decoder, array-element-list decoder.
Structural recursion on the fuel keeps every decoder kernel-reducible. -/
def jsonParsers : Nat →
    ((Str → Option (Json × Str)) ×
     (Str → Option (List (Str × Json) × Str)) ×
     (Str → Option (List Json × Str)))
  | 0 => (fun _ => none, fun _ => none, fun _ => none)
  | fuel + 1 =>
    let pv := (jsonParsers fuel).1
    let pm := (jsonParsers fuel).2.1
    let pa := (jsonParsers fuel).2.2
    ( fun cs =>
        let t := skipJsonWs cs
        match matchLit t with
        | some res => some res
        | none =>
          match t with
          | '"' :: r => (parseStringAux r).map fun p => (.str p.1, p.2)
          | '[' :: r =>
            (match skipJsonWs r with
             | ']' :: r2 => some (.arr [], r2)
             | r2 => (pa r2).map fun p => (.arr p.1, p.2))
          | '{' :: r =>
            (match skipJsonWs r with
             | '}' :: r2 => some (.obj [], r2)
             | r2 => (pm r2).map fun p => (.obj p.1, p.2))
          | '-' :: r => (parseNumTail r).map fun p => (.num (-p.1), p.2)
          | c :: r =>
            if c.isDigit then (parseNumTail (c :: r)).map fun p => (.num p.1, p.2)
            else none
          | [] => none,
      fun cs =>
        match skipJsonWs cs with
        | '"' :: r =>
          (match parseStringAux r with
           | none => none
           | some (key, r1) =>
             match skipJsonWs r1 with
             | ':' :: r2 =>
               (match pv r2 with
                | none => none
                | some (v, r3) =>
                  match skipJsonWs r3 with
                  | ',' :: r4 => (pm r4).map fun p => ((key, v) :: p.1, p.2)
                  | '}' :: r4 => some ([(key, v)], r4)
                  | _ => none)
             | _ => none)
        | _ => none,
      fun cs =>
        match pv cs with
        | none => none
        | some (v, r1) =>
          match skipJsonWs r1 with
          | ',' :: r2 => (pa r2).map fun p => (v :: p.1, p.2)
          | ']' :: r2 => some ([v], r2)
          | _ => none )

/-- Model of `json.loads`: decode one JSON document and require that only
whitespace follows it (Python raises `Extra data` otherwise). -/
def json_loads (cs : Str) : Option Json :=
  match (jsonParsers (cs.length + 2)).1 cs with
  | some (v, rest) => if (skipJsonWs rest).isEmpty then some v else none
  | none => none

/-! ## `parse_json_from_response` (lines 476–531)

The function first looks for a fenced block via
`re.search(r'```json\s*([\s\S]*?)\s*```', text)`; failing that it looks
for a JSON-object start via `re.search(r'\{\s*"[^"]+"\s*:', text)` and
walks a brace-depth/in-string scanner from there.  Every failure path
raises `ValueError("Failed to parse analysis results")`, modelled as
`.error ()`. -/

/-- Python's regex class `\s` (ASCII range): space, tab, newline,
carriage return, vertical tab, form feed. -/
def isReWs (c : Char) : Bool :=
  [' ', '\t', '\n', '\r', Char.ofNat 11, Char.ofNat 12].contains c

/-- Does the pattern `\{\s*"[^"]+"\s*:` match at the head of the input?
(`[^"]+` is a maximal nonempty run of non-quote characters; the regex
engine's behaviour here is deterministic.) -/
def matchesJsonStart (cs : Str) : Bool :=
  match cs with
  | '{' :: rest =>
    (match rest.dropWhile isReWs with
     | '"' :: r2 =>
       let key := r2.takeWhile (fun c => !(c == '"'))
       (match r2.dropWhile (fun c => !(c == '"')) with
        | '"' :: r4 =>
          !key.isEmpty &&
          (match r4.dropWhile isReWs with
           | ':' :: _ => true
           | _ => false)
        | _ => false)
     | _ => false)
  | _ => false

/-- Index of the leftmost match of `\{\s*"[^"]+"\s*:` (the match starts
at the `{`), as `re.search` reports it. -/
def findJsonStartIdxAux : Str → Nat → Option Nat
  | [], _ => none
  | cs@(_ :: rest), i =>
    if matchesJsonStart cs then some i else findJsonStartIdxAux rest (i + 1)

/-- `re.search(r'\{\s*"[^"]+"\s*:', text)` start position. -/
def findJsonStartIdx (cs : Str) : Option Nat := findJsonStartIdxAux cs 0

/-- Split the input at the first occurrence of `pat`, returning the text
before it and the text after it; `none` if `pat` does not occur. -/
def splitFirstAux (pat : Str) : Str → Str → Option (Str × Str)
  | [], _ => none
  | cs@(c :: rest), acc =>
    if pat.isPrefixOf cs then some (acc.reverse, cs.drop pat.length)
    else splitFirstAux pat rest (c :: acc)

/-- First occurrence split. -/
def splitFirst (pat cs : Str) : Option (Str × Str) := splitFirstAux pat cs []

/-- Strip trailing regex whitespace. -/
def dropTrailingReWs (cs : Str) : Str :=
  (cs.reverse.dropWhile isReWs).reverse

/-- Given the text following a ```` ```json ```` tag, the capture of
`\s*([\s\S]*?)\s*```': the leading `\s*` is greedy, the lazy group ends
at the start of the whitespace run preceding the first ```` ``` ````. -/
def fencedCapture (afterTag : Str) : Option Str :=
  let body := afterTag.dropWhile isReWs
  match splitFirst "```".toList body with
  | none => none
  | some (pre, _) => some (dropTrailingReWs pre)

/-- Leftmost-match search for `re.search(r'```json\s*([\s\S]*?)\s*```')`:
scan for a ```` ```json ```` tag whose remainder contains a closing
```` ``` ````, and return the (whitespace-trimmed) lazy capture. -/
def findFencedJsonAux : Str → Option Str
  | [] => none
  | cs@(_ :: rest) =>
    if "```json".toList.isPrefixOf cs then
      match fencedCapture (cs.drop 7) with
      | some g => some g
      | none => findFencedJsonAux rest
    else findFencedJsonAux rest

/-- Group 1 of `re.search(r'```json\s*([\s\S]*?)\s*```', text)`. -/
def findFencedJson (cs : Str) : Option Str := findFencedJsonAux cs

/-- The brace-balancing loop of `parse_json_from_response` (lines
490–516): walk the characters from the match start maintaining a brace
depth, an in-string toggle and an escape-pending flag, and report the
index one past the `}` at which the depth returns to zero (`none` when
the loop exhausts the text, which the source turns into
`Could not find complete JSON in response`). -/
def braceScanAux : Str → Nat → Int → Bool → Bool → Option Nat
  | [], _, _, _, _ => none
  | c :: rest, i, depth, inString, escapeNext =>
    if escapeNext then braceScanAux rest (i + 1) depth inString false
    else if c == '\\' then braceScanAux rest (i + 1) depth inString true
    else
      let inString' := if c == '"' then !inString else inString
      if !inString' then
        if c == '{' then braceScanAux rest (i + 1) (depth + 1) inString' false
        else if c == '}' then
          if depth - 1 = 0 then some (i + 1)
          else braceScanAux rest (i + 1) (depth - 1) inString' false
        else braceScanAux rest (i + 1) depth inString' false
      else braceScanAux rest (i + 1) depth inString' false

/-- The balanced-object end position, scanning from `start`. -/
def braceScan (cs : Str) (start : Nat) : Option Nat :=
  braceScanAux (cs.drop start) start 0 false false

/-- `parse_json_from_response(response_text)` (lines 476–531): extract a
JSON payload (fenced block first, then the brace-scan heuristic) and
decode it.  Every failure — no candidate found, incomplete braces, or a
decode error — ends in the uniform
`ValueError("Failed to parse analysis results")`, modelled `.error ()`. -/
def parse_json_from_response (cs : Str) : Except Unit Json :=
  match findFencedJson cs with
  | some jsonStr =>
    (match json_loads jsonStr with
     | some v => .ok v
     | none => .error ())
  | none =>
    match findJsonStartIdx cs with
    | some startPos =>
      (match braceScan cs startPos with
       | some endPos =>
         (match json_loads ((cs.take endPos).drop startPos) with
          | some v => .ok v
          | none => .error ())
       | none => .error ())
    | none => .error ()

/-! ## Document preprocessor (lines 417–474) -/

/-- `extract_text_from_pdf(pdf_bytes)` (lines 417–428): concatenate the
text of every page; on any exception, print and return `""`. -/
def extract_text_from_pdf (pdf : PdfDoc) : Str :=
  match pdf.textPages with
  | .ok pages => pages.flatten
  | .error _ => []

/-- `convert_pdf_to_images(pdf_bytes, max_pages=5)` (lines 430–438):
the pages `pdf2image` produces, limited to `max_pages`; on any
exception, print and return `[]`. -/
def convert_pdf_to_images (pdf : PdfDoc) (maxPages : Nat := 5) : List Image :=
  match pdf.pages with
  | .ok imgs => imgs.take maxPages
  | .error _ => []

/-- The job-description suffix appended to the text part:
`if job_description:` is Python truthiness, so `None` and the empty
string alike append nothing. -/
def jd_suffix : Option Str → Str
  | none => []
  | some jd => if jd.isEmpty then [] else "\n\nJOB DESCRIPTION:\n".toList ++ jd

/-- `prepare_vision_content(pdf_bytes, job_description=None, prompt=None,
include_images=True)` (lines 440–474): one text part first — the prompt,
the label, the first 10000 characters of the extracted text, a literal
`"..."`, and the job-description block when truthy — followed, when
`include_images`, by the first 3 rasterized pages (of the default 5) as
JPEG parts. -/
def prepare_vision_content (pdf : PdfDoc) (job_description : Option Str)
    (prompt : Str) (include_images : Bool := true) : List Part :=
  let text_content := extract_text_from_pdf pdf
  let fullText := prompt ++ "\n\nResume text content: ".toList ++
    text_content.take 10000 ++ "...".toList ++ jd_suffix job_description
  let textParts := [Part.text fullText]
  if include_images then
    textParts ++ ((convert_pdf_to_images pdf).take 3).map (Part.image "image/jpeg".toList)
  else textParts

/-! ## Completion client retry loop (lines 533–562)

`get_gemini_response` loops `while retry_count < max_retries` with
`max_retries = 3`; each iteration calls the model; on an exception it
increments `retry_count`, re-raises when `retry_count >= max_retries`,
and otherwise sleeps `2 ** retry_count` before the next iteration.  The
oracle is an attempt-indexed stub (`none` = the call raised); the result
records the outcome, the list of sleep durations in order, and the
number of attempts made. -/

/-- One loop state of `get_gemini_response`: `retryCount` is the Python
variable, `fuel` the remaining loop iterations (the `while` guard). -/
def get_gemini_go (oracle : Nat → Option Str) (maxRetries : Nat) :
    Nat → Nat → Except Unit Str × List Nat × Nat
  | _, 0 => (.error (), [], 0)
  | retryCount, fuel + 1 =>
    match oracle retryCount with
    | some t => (.ok t, [], 1)
    | none =>
      let rc := retryCount + 1
      if maxRetries ≤ rc then (.error (), [], 1)
      else
        let rest := get_gemini_go oracle maxRetries rc fuel
        (rest.1, 2 ^ rc :: rest.2.1, rest.2.2 + 1)

/-- `get_gemini_response` with `max_retries = 3`: `(outcome, sleeps,
attempts)`. -/
def get_gemini_response (oracle : Nat → Option Str) :
    Except Unit Str × List Nat × Nat :=
  get_gemini_go oracle 3 0 3

/-! ## Analysis orchestrators (lines 564–658)

The chain drivers.  The five prompt templates are module-level string
constants in the source whose contents no stage logic inspects; they are
taken here as arguments, as is the serializer `dumps` (`json.dumps(·,
indent=2)`) and the completion oracle.  Each driver also returns the
trace of `(job_description, prompt, include_images, temperature)`
argument tuples it passed to `prepare_vision_content` /
`get_gemini_response`, in order, so that the call structure is a stated
artifact rather than an invisible side effect. -/

/-- The placeholder `{{FIRST_STAGE_ANALYSIS}}`. -/
def phFirst : Str := "\x7b\x7bFIRST_STAGE_ANALYSIS\x7d\x7d".toList

/-- The placeholder `{{SECOND_STAGE_ANALYSIS}}`. -/
def phSecond : Str := "\x7b\x7bSECOND_STAGE_ANALYSIS\x7d\x7d".toList

/-- Python `str.replace`: replace every non-overlapping occurrence of
`pat`, left to right (fuel-bounded transcription). -/
def replaceAllAux : Nat → Str → Str → Str → Str
  | 0, _, _, cs => cs
  | fuel + 1, pat, repl, cs =>
    match cs with
    | [] => []
    | c :: rest =>
      if pat.isPrefixOf cs then repl ++ replaceAllAux fuel pat repl (cs.drop pat.length)
      else c :: replaceAllAux fuel pat repl rest

/-- `template.replace(pat, repl)`. -/
def strReplace (cs pat repl : Str) : Str := replaceAllAux cs.length pat repl cs

/-- The dict comprehension of lines 605 and 653:
`{k: v for k, v in final_analysis.items() if not k.startswith('_')}`. -/
def client_response (kvs : List (Str × Json)) : List (Str × Json) :=
  kvs.filter fun kv => !("_".toList.isPrefixOf kv.1)

/-- The argument tuple of one stage's `prepare_vision_content` +
`get_gemini_response` pair. -/
structure StageCall where
  jd : Option Str
  prompt : Str
  includeImages : Bool
  temperature : ℚ

/-- `analyze_resume_ats_only(pdf_bytes)` (lines 564–610): the three-stage
ATS-only chain.  Any oracle or parse failure propagates (`.error`); a
stage-3 result that is not a JSON object makes the final dict
comprehension raise, also `.error`.  The first component is the trace of
stage calls actually issued. -/
def analyze_resume_ats_only (tpl1 tpl2 tpl3 : Str) (dumps : Json → Str)
    (oracle : List Part → ℚ → Except Unit Str) (pdf : PdfDoc) :
    List StageCall × Except Unit (List (Str × Json)) :=
  let call1 : StageCall := ⟨none, tpl1, true, 1/10⟩
  match oracle (prepare_vision_content pdf call1.jd call1.prompt call1.includeImages)
      call1.temperature with
  | .error _ => ([call1], .error ())
  | .ok r1 =>
  match parse_json_from_response r1 with
  | .error _ => ([call1], .error ())
  | .ok s1 =>
  let call2 : StageCall := ⟨none, strReplace tpl2 phFirst (dumps s1), false, 2/10⟩
  match oracle (prepare_vision_content pdf call2.jd call2.prompt call2.includeImages)
      call2.temperature with
  | .error _ => ([call1, call2], .error ())
  | .ok r2 =>
  match parse_json_from_response r2 with
  | .error _ => ([call1, call2], .error ())
  | .ok s2 =>
  let call3 : StageCall :=
    ⟨none, strReplace (strReplace tpl3 phFirst (dumps s1)) phSecond (dumps s2), false, 3/10⟩
  match oracle (prepare_vision_content pdf call3.jd call3.prompt call3.includeImages)
      call3.temperature with
  | .error _ => ([call1, call2, call3], .error ())
  | .ok r3 =>
  match parse_json_from_response r3 with
  | .error _ => ([call1, call2, call3], .error ())
  | .ok s3 =>
  match s3 with
  | .obj kvs => ([call1, call2, call3], .ok (client_response kvs))
  | _ => ([call1, call2, call3], .error ())

/-- `analyze_resume_job_matching(pdf_bytes, job_description)` (lines
612–658): the three-stage job-matching chain; the job description is
passed to `prepare_vision_content` at stages 2 and 3. -/
def analyze_resume_job_matching (tpl1 tpl2 tpl3 : Str) (dumps : Json → Str)
    (oracle : List Part → ℚ → Except Unit Str) (pdf : PdfDoc)
    (job_description : Str) :
    List StageCall × Except Unit (List (Str × Json)) :=
  let call1 : StageCall := ⟨none, tpl1, true, 1/10⟩
  match oracle (prepare_vision_content pdf call1.jd call1.prompt call1.includeImages)
      call1.temperature with
  | .error _ => ([call1], .error ())
  | .ok r1 =>
  match parse_json_from_response r1 with
  | .error _ => ([call1], .error ())
  | .ok s1 =>
  let call2 : StageCall :=
    ⟨some job_description, strReplace tpl2 phFirst (dumps s1), false, 2/10⟩
  match oracle (prepare_vision_content pdf call2.jd call2.prompt call2.includeImages)
      call2.temperature with
  | .error _ => ([call1, call2], .error ())
  | .ok r2 =>
  match parse_json_from_response r2 with
  | .error _ => ([call1, call2], .error ())
  | .ok s2 =>
  let call3 : StageCall :=
    ⟨some job_description,
     strReplace (strReplace tpl3 phFirst (dumps s1)) phSecond (dumps s2), false, 3/10⟩
  match oracle (prepare_vision_content pdf call3.jd call3.prompt call3.includeImages)
      call3.temperature with
  | .error _ => ([call1, call2, call3], .error ())
  | .ok r3 =>
  match parse_json_from_response r3 with
  | .error _ => ([call1, call2, call3], .error ())
  | .ok s3 =>
  match s3 with
  | .obj kvs => ([call1, call2, call3], .ok (client_response kvs))
  | _ => ([call1, call2, call3], .error ())

/-! ## HTTP endpoint handlers (lines 660–717)

The handlers validate the upload and (for job matching) the job
description before invoking the analysis chain.  Success here stands for
"validation passed and the chain is invoked with these arguments": the
`.ok` payload is exactly what gets handed to the orchestrator, so a
`.error` result means the request was rejected with the given client
error before any oracle call could happen. -/

/-- An `HTTPException(status_code, detail)`. -/
structure HTTPError where
  status : Nat
  detail : Str
deriving DecidableEq

/-- Python `str.strip()` over the ASCII whitespace characters. -/
def pyStrip (cs : Str) : Str :=
  ((cs.dropWhile isReWs).reverse.dropWhile isReWs).reverse

/-- `api_analyze_resume_job_matching` validation (lines 660–683): reject
non-`.pdf` filenames, then reject empty/blank job descriptions, then
invoke `analyze_resume_job_matching(pdf_bytes, job_description)`. -/
def api_analyze_resume_job_matching (filename : Str) (job_description : Str)
    (pdf : PdfDoc) : Except HTTPError (PdfDoc × Str) :=
  if !(".pdf".toList.isSuffixOf filename) then
    .error ⟨400, "Only PDF files are supported".toList⟩
  else if job_description.isEmpty || (pyStrip job_description).isEmpty then
    .error ⟨400, "Job description is required".toList⟩
  else .ok (pdf, job_description)

/-- `api_analyze_resume_ats_only` validation (lines 692–710): reject
non-`.pdf` filenames, then invoke `analyze_resume_ats_only(pdf_bytes)`;
no job description is consulted or required. -/
def api_analyze_resume_ats_only (filename : Str) (pdf : PdfDoc) :
    Except HTTPError PdfDoc :=
  if !(".pdf".toList.isSuffixOf filename) then
    .error ⟨400, "Only PDF files are supported".toList⟩
  else .ok pdf

/-! ## Theorems -/

/-- C1: on a response with no ```json fence but with a JSON object
embedded in prose, the parser scans from the first `{`-quoted-key-colon
position (index 6 here), the brace-depth/in-string scan ends the object
at the depth-zero position (index 60), braces and quotes inside string
literals do not perturb the count, and the decoded object has
`overall_score = 82` and a `notes` value containing the literal
substring `{braces}`. -/
theorem parse_recovers_unfenced_json :
    findFencedJson "Sure! \x7b\"overall_score\": 82, \"notes\": \"uses \x7bbraces\x7d inside\"\x7d Hope that helps.".toList = none ∧
    findJsonStartIdx "Sure! \x7b\"overall_score\": 82, \"notes\": \"uses \x7bbraces\x7d inside\"\x7d Hope that helps.".toList = some 6 ∧
    braceScan "Sure! \x7b\"overall_score\": 82, \"notes\": \"uses \x7bbraces\x7d inside\"\x7d Hope that helps.".toList 6 = some 60 ∧
    parse_json_from_response "Sure! \x7b\"overall_score\": 82, \"notes\": \"uses \x7bbraces\x7d inside\"\x7d Hope that helps.".toList =
      .ok (Json.obj [("overall_score".toList, Json.num 82),
                     ("notes".toList, Json.str "uses \x7bbraces\x7d inside".toList)]) ∧
    List.IsInfix "\x7bbraces\x7d".toList "uses \x7bbraces\x7d inside".toList :=
  ⟨rfl, rfl, rfl, rfl, by decide⟩

/-- C8: on a response with no ```json fenced block and no
`{`-quoted-key-colon substring, `parse_json_from_response` fails rather
than returning a result. -/
theorem parse_fails_without_json_candidate (cs : Str)
    (hf : findFencedJson cs = none) (hs : findJsonStartIdx cs = none) :
    parse_json_from_response cs = .error () := by
  unfold parse_json_from_response
  rw [hf, hs]

/-- Witness for C8 at the spec's example input. -/
theorem parse_fails_without_json_candidate_witness :
    findFencedJson "I could not analyze this.".toList = none ∧
    findJsonStartIdx "I could not analyze this.".toList = none ∧
    parse_json_from_response "I could not analyze this.".toList = .error () :=
  ⟨rfl, rfl, parse_fails_without_json_candidate _ rfl rfl⟩

/-- C10: when a ```json fenced block is present but its contents fail to
decode, the parser fails immediately; it never falls back to the
unfenced brace-scan heuristic. -/
theorem parse_no_fallback_after_bad_fence (cs g : Str)
    (hf : findFencedJson cs = some g) (hd : json_loads g = none) :
    parse_json_from_response cs = .error () := by
  simp [parse_json_from_response, hf, hd]

/-- Witness for C10: the fenced contents `not json` fail to decode and
the parse errors, even though a decodable unfenced object `{"a": 1}`
appears later in the same text (the brace-scan heuristic would have
found it at index 25). -/
theorem parse_no_fallback_after_bad_fence_witness :
    findFencedJson "```json\nnot json\n```\nBut \x7b\"a\": 1\x7d is here.".toList =
      some "not json".toList ∧
    json_loads "not json".toList = none ∧
    json_loads "\x7b\"a\": 1\x7d".toList = some (Json.obj [("a".toList, Json.num 1)]) ∧
    parse_json_from_response "```json\nnot json\n```\nBut \x7b\"a\": 1\x7d is here.".toList =
      .error () :=
  ⟨rfl, rfl, rfl, parse_no_fallback_after_bad_fence _ _ rfl rfl⟩

/-- C2 counterexample: with an oracle that fails every attempt, the
recorded waits are `[2, 4]` (namely `2 ** retry_count` after the
`retry_count += 1`), not the `1, 2, 4` units for attempts `1, 2, 3`
enumerated by the claim — the wait after the first failed attempt is 2,
not 1, and no third wait exists. -/
theorem retry_sleeps_counterexample :
    (get_gemini_response fun _ => none).2.1 = [2, 4] ∧
    (get_gemini_response fun _ => none).2.1 ≠ [1, 2] ∧
    (get_gemini_response fun _ => none).2.1 ≠ [1, 2, 4] := by
  refine ⟨rfl, ?_, ?_⟩ <;> decide

/-- C2 (amended): the completion client makes at most 3 attempts per
call; a call that fails twice and succeeds on the third attempt succeeds
overall, having waited `2^1 = 2` then `2^2 = 4` time units (total 6,
hence at least 3); a call that fails all three attempts propagates the
failure with no further retry. -/
theorem retry_policy (oracle : Nat → Option Str) :
    (get_gemini_response oracle).2.2 ≤ 3 ∧
    (∀ t, oracle 0 = none → oracle 1 = none → oracle 2 = some t →
      (get_gemini_response oracle).1 = .ok t ∧
      (get_gemini_response oracle).2.1 = [2, 4] ∧
      3 ≤ (get_gemini_response oracle).2.1.sum) ∧
    (oracle 0 = none → oracle 1 = none → oracle 2 = none →
      (get_gemini_response oracle).1 = .error () ∧
      (get_gemini_response oracle).2.2 = 3) := by
  rcases h0 : oracle 0 with _ | t0 <;>
    rcases h1 : oracle 1 with _ | t1 <;>
      rcases h2 : oracle 2 with _ | t2 <;>
        simp [get_gemini_response, get_gemini_go, h0, h1, h2]

/-- Witness for C2's amended theorem: an oracle stub failing twice then
answering `ok` makes the call succeed with waits `[2, 4]`. -/
theorem retry_policy_witness :
    (get_gemini_response fun n => if n = 2 then some "ok".toList else none).2.2 ≤ 3 ∧
    (get_gemini_response fun n => if n = 2 then some "ok".toList else none).1 =
      .ok "ok".toList ∧
    (get_gemini_response fun n => if n = 2 then some "ok".toList else none).2.1 = [2, 4] ∧
    3 ≤ (get_gemini_response fun n => if n = 2 then some "ok".toList else none).2.1.sum :=
  ⟨(retry_policy _).1,
   ((retry_policy _).2.1 _ rfl rfl rfl).1,
   ((retry_policy _).2.1 _ rfl rfl rfl).2.1,
   ((retry_policy _).2.1 _ rfl rfl rfl).2.2⟩

/-- C3: the report returned to the caller is the stage-3 object with
every underscore-prefixed key removed: no underscore-prefixed key
survives the filter, every other key/value pair survives unchanged, and
every underscore-prefixed pair is absent from the result. -/
theorem client_response_strips_underscore_keys (kvs : List (Str × Json)) :
    (∀ kv ∈ client_response kvs, ['_'].isPrefixOf kv.1 = false) ∧
    (∀ kv ∈ kvs, ['_'].isPrefixOf kv.1 = false → kv ∈ client_response kvs) ∧
    (∀ kv ∈ kvs, ['_'].isPrefixOf kv.1 = true → kv ∉ client_response kvs) := by
  refine ⟨fun kv hkv => ?_, fun kv hkv h => ?_, fun kv _ h hmem => ?_⟩
  · have := (List.mem_filter.1 hkv).2
    simpa [client_response] using this
  · exact List.mem_filter.2 ⟨hkv, by simp [h]⟩
  · have := (List.mem_filter.1 hmem).2
    simp [h] at this

/-- Witness for C3: `_debug` is removed, `overall_score` survives. -/
theorem client_response_strips_underscore_keys_witness :
    ("_debug".toList, Json.null) ∉
      client_response [("_debug".toList, Json.null), ("overall_score".toList, Json.num 82)] ∧
    ("overall_score".toList, Json.num 82) ∈
      client_response [("_debug".toList, Json.null), ("overall_score".toList, Json.num 82)] :=
  ⟨(client_response_strips_underscore_keys _).2.2 _ (List.mem_cons_self _ _) rfl,
   (client_response_strips_underscore_keys _).2.1 _
     (List.mem_cons_of_mem _ (List.mem_cons_self _ _)) rfl⟩

/-- The list shape of `prepare_vision_content` without images: just the
single text part. -/
lemma prepare_parts_shape_noimg (pdf : PdfDoc) (jd : Option Str) (prompt : Str) :
    prepare_vision_content pdf jd prompt false =
      [Part.text (prompt ++ "\n\nResume text content: ".toList ++
        (extract_text_from_pdf pdf).take 10000 ++ "...".toList ++ jd_suffix jd)] :=
  rfl

/-- The list shape of `prepare_vision_content` with images: the single
text part followed by the first three pages as JPEG parts. -/
lemma prepare_parts_shape_img (pdf : PdfDoc) (jd : Option Str) (prompt : Str) :
    prepare_vision_content pdf jd prompt true =
      Part.text (prompt ++ "\n\nResume text content: ".toList ++
        (extract_text_from_pdf pdf).take 10000 ++ "...".toList ++ jd_suffix jd) ::
      ((convert_pdf_to_images pdf).take 3).map (Part.image "image/jpeg".toList) :=
  rfl

/-- No mapped image part is a text part. -/
lemma countP_isText_image_parts (imgs : List Image) (m : Str) :
    (imgs.map (Part.image m)).countP Part.isText = 0 :=
  List.countP_eq_zero.2 fun a ha => by
    obtain ⟨x, _, rfl⟩ := List.mem_map.1 ha
    simp [Part.isText]

/-- C4: `prepare_vision_content` emits exactly one text part, placed
first, whose text is the prompt, then the label, then the first 10000
characters of the extracted text (hard cutoff), then the literal
`"..."`, then the job-description block; the resume text included never
exceeds 10000 characters; when the job description is present
(non-empty — Python truthiness), its block carries it verbatim, and an
absent job description appends nothing. -/
theorem prepared_content_single_text_part (pdf : PdfDoc) (jd : Option Str)
    (prompt : Str) (inc : Bool) :
    (prepare_vision_content pdf jd prompt inc).head? =
      some (Part.text (prompt ++ "\n\nResume text content: ".toList ++
        (extract_text_from_pdf pdf).take 10000 ++ "...".toList ++ jd_suffix jd)) ∧
    (prepare_vision_content pdf jd prompt inc).countP Part.isText = 1 ∧
    ((extract_text_from_pdf pdf).take 10000).length ≤ 10000 ∧
    (∀ c s, jd_suffix (some (c :: s)) = "\n\nJOB DESCRIPTION:\n".toList ++ (c :: s)) ∧
    jd_suffix none = [] := by
  refine ⟨?_, ?_, by simp, fun c s => rfl, rfl⟩
  · cases inc
    · rw [prepare_parts_shape_noimg]
      rfl
    · rw [prepare_parts_shape_img]
      rfl
  · cases inc
    · rw [prepare_parts_shape_noimg]
      rfl
    · rw [prepare_parts_shape_img, List.countP_cons, countP_isText_image_parts]
      rfl

/-- C7: `convert_pdf_to_images` returns at most `maxPages` images (at
most 5 under the default), and `prepare_vision_content` with images
enabled attaches at most 3 image parts regardless of how many pages the
rasterizer produced. -/
theorem image_count_bounds (pdf : PdfDoc) (maxPages : Nat) (jd : Option Str)
    (prompt : Str) :
    (convert_pdf_to_images pdf maxPages).length ≤ maxPages ∧
    (convert_pdf_to_images pdf).length ≤ 5 ∧
    (prepare_vision_content pdf jd prompt true).countP Part.isImage ≤ 3 := by
  refine ⟨?_, ?_, ?_⟩
  · unfold convert_pdf_to_images
    rcases pdf.pages with _ | imgs <;> simp
  · unfold convert_pdf_to_images
    rcases pdf.pages with _ | imgs <;> simp
  · rw [prepare_parts_shape_img]
    show (((convert_pdf_to_images pdf).take 3).map
      (Part.image "image/jpeg".toList)).countP Part.isImage ≤ 3
    calc (((convert_pdf_to_images pdf).take 3).map
            (Part.image "image/jpeg".toList)).countP Part.isImage
        ≤ (((convert_pdf_to_images pdf).take 3).map
            (Part.image "image/jpeg".toList)).length := List.countP_le_length _
      _ ≤ 3 := by simp

/-- C9: when the PDF libraries throw, text extraction degrades to the
empty string and rasterization to the empty sequence — neither
propagates the failure — and content preparation still proceeds,
producing the single text part (with empty resume text) and no image
parts. -/
theorem extraction_failure_degrades (pdf : PdfDoc) (prompt : Str) :
    (pdf.textPages = .error () → extract_text_from_pdf pdf = []) ∧
    (pdf.pages = .error () → ∀ maxPages, convert_pdf_to_images pdf maxPages = []) ∧
    (pdf.textPages = .error () → pdf.pages = .error () →
      prepare_vision_content pdf none prompt true =
        [Part.text (prompt ++ "\n\nResume text content: ".toList ++ "...".toList)]) := by
  refine ⟨fun h => ?_, fun h maxPages => ?_, fun h1 h2 => ?_⟩
  · simp [extract_text_from_pdf, h]
  · simp [convert_pdf_to_images, h]
  · have e1 : extract_text_from_pdf pdf = [] := by simp [extract_text_from_pdf, h1]
    have e2 : convert_pdf_to_images pdf = [] := by simp [convert_pdf_to_images, h2]
    rw [prepare_parts_shape_img, e1, e2]
    simp [jd_suffix]

/-- Witness for C9 at a document on which both libraries throw. -/
theorem extraction_failure_degrades_witness :
    extract_text_from_pdf ⟨.error (), .error ()⟩ = [] ∧
    convert_pdf_to_images ⟨.error (), .error ()⟩ 5 = [] ∧
    prepare_vision_content ⟨.error (), .error ()⟩ none [] true =
      [Part.text ("\n\nResume text content: ".toList ++ "...".toList)] :=
  ⟨(extraction_failure_degrades ⟨.error (), .error ()⟩ []).1 rfl,
   (extraction_failure_degrades ⟨.error (), .error ()⟩ []).2.1 rfl 5,
   (extraction_failure_degrades ⟨.error (), .error ()⟩ []).2.2 rfl rfl⟩

/-- C6: a non-`.pdf` filename is rejected with a 400 client error by
both endpoints, and a blank (whitespace-only) job description is
rejected with a 400 by the job-matching endpoint — in both cases the
handler returns before the analysis chain (and hence any oracle call)
is invoked — while the ATS-only endpoint requires no job description:
a `.pdf` filename alone makes it proceed. -/
theorem endpoint_validation (filename jd : Str) (pdf : PdfDoc) :
    ((".pdf".toList.isSuffixOf filename) = false →
      api_analyze_resume_job_matching filename jd pdf =
        .error ⟨400, "Only PDF files are supported".toList⟩ ∧
      api_analyze_resume_ats_only filename pdf =
        .error ⟨400, "Only PDF files are supported".toList⟩) ∧
    ((".pdf".toList.isSuffixOf filename) = true → pyStrip jd = [] →
      api_analyze_resume_job_matching filename jd pdf =
        .error ⟨400, "Job description is required".toList⟩) ∧
    ((".pdf".toList.isSuffixOf filename) = true →
      api_analyze_resume_ats_only filename pdf = .ok pdf) := by
  refine ⟨fun h => ⟨?_, ?_⟩, fun h hblank => ?_, fun h => ?_⟩
  · unfold api_analyze_resume_job_matching
    rw [h]
    rfl
  · unfold api_analyze_resume_ats_only
    rw [h]
    rfl
  · unfold api_analyze_resume_job_matching
    rw [h, hblank]
    simp
  · unfold api_analyze_resume_ats_only
    rw [h]
    rfl

/-- Witness for C6: `resume.txt` is rejected by both endpoints, a
whitespace-only job description is rejected by the job-matching
endpoint, and `resume.pdf` alone satisfies the ATS-only endpoint. -/
theorem endpoint_validation_witness :
    api_analyze_resume_job_matching "resume.txt".toList "jd".toList ⟨.ok [], .ok []⟩ =
      .error ⟨400, "Only PDF files are supported".toList⟩ ∧
    api_analyze_resume_ats_only "resume.txt".toList ⟨.ok [], .ok []⟩ =
      .error ⟨400, "Only PDF files are supported".toList⟩ ∧
    api_analyze_resume_job_matching "resume.pdf".toList "   ".toList ⟨.ok [], .ok []⟩ =
      .error ⟨400, "Job description is required".toList⟩ ∧
    api_analyze_resume_ats_only "resume.pdf".toList ⟨.ok [], .ok []⟩ =
      .ok ⟨.ok [], .ok []⟩ :=
  ⟨((endpoint_validation "resume.txt".toList "jd".toList ⟨.ok [], .ok []⟩).1 rfl).1,
   ((endpoint_validation "resume.txt".toList "jd".toList ⟨.ok [], .ok []⟩).1 rfl).2,
   (endpoint_validation "resume.pdf".toList "   ".toList ⟨.ok [], .ok []⟩).2.1 rfl rfl,
   (endpoint_validation "resume.pdf".toList "jd".toList ⟨.ok [], .ok []⟩).2.2 rfl⟩

/-- When present, a recorded stage call has the given image flag, job
description and temperature. -/
def callOK (inc : Bool) (jdOpt : Option Str) (temp : ℚ) : Option StageCall → Prop
  | none => True
  | some c => c.includeImages = inc ∧ c.jd = jdOpt ∧ c.temperature = temp

/-- The stage-call structure asserted by C5 for one chain: the first
call (stage 1) has images enabled, no job description and temperature
0.1; the second and third calls (stages 2 and 3) have images disabled,
the given job-description argument and temperatures 0.2 and 0.3. -/
def TraceOK (jdOpt : Option Str) (t : List StageCall) : Prop :=
  callOK true none (1/10) t.head? ∧
  callOK false jdOpt (2/10) t[1]? ∧
  callOK false jdOpt (3/10) t[2]?

/-- C5: in both modes the chain issues stage 1 with images and no job
description and stages 2 and 3 without images; the job description is
passed to stages 2 and 3 exactly in job-matching mode (ATS-only passes
none); and the per-stage temperatures are the fixed constants 0.1, 0.2,
0.3 with stage 1 lowest and stage 3 highest. -/
theorem chain_stage_structure (tpl1 tpl2 tpl3 : Str) (dumps : Json → Str)
    (oracle : List Part → ℚ → Except Unit Str) (pdf : PdfDoc) (jd : Str) :
    TraceOK none (analyze_resume_ats_only tpl1 tpl2 tpl3 dumps oracle pdf).1 ∧
    TraceOK (some jd)
      (analyze_resume_job_matching tpl1 tpl2 tpl3 dumps oracle pdf jd).1 ∧
    (1 : ℚ)/10 < 2/10 ∧ (2 : ℚ)/10 < 3/10 := by
  refine ⟨?_, ?_, by norm_num, by norm_num⟩
  · unfold TraceOK analyze_resume_ats_only
    dsimp only
    repeat' split
    all_goals exact ⟨⟨rfl, rfl, rfl⟩,
      by first | exact ⟨rfl, rfl, rfl⟩ | trivial,
      by first | exact ⟨rfl, rfl, rfl⟩ | trivial⟩
  · unfold TraceOK analyze_resume_job_matching
    dsimp only
    repeat' split
    all_goals exact ⟨⟨rfl, rfl, rfl⟩,
      by first | exact ⟨rfl, rfl, rfl⟩ | trivial,
      by first | exact ⟨rfl, rfl, rfl⟩ | trivial⟩

end ATS
